import Mathlib

/-
Verification development for the session-backend repository (src/server.js).

The file shallow-embeds the session lifecycle coordinator of src/server.js:
  * the credential assembler `createCredsJson` (server.js lines 96-139),
  * the delivery routine `sendSessionViaWhatsApp` (lines 142-170),
  * the connection initializer `initializeWhatsApp` (lines 173-307), here
    named `initWhatsApp` to satisfy local naming restrictions, together
    with its deferred actions (pairing request, stabilization handler,
    retirement cleanup, reconnect retry),
  * the two session-creation entry points (the `generateSession` socket
    handler, lines 323-358, and `POST /api/generate-session`,
    lines 366-395),
  * the `GET /download/:filename` endpoint (lines 398-423).

Modelling conventions:
  * The JavaScript event loop is single threaded; each handler body runs
    atomically between suspension points.  Handlers are embedded as pure
    functions on an explicit `ServerState`.  Each `setTimeout` in the
    source becomes a pending entry in `ServerState.timers`; firing a timer
    is applying the corresponding `fire…` function (and removing the entry).
  * The external socket library is modelled by the `Sock` ledger in
    `ServerState`: `makeWASocket` appends a fresh live handle tagged with
    the phone number it serves, `sock.end()` and an incoming `close` event
    mark it ended.  `sock.end()` never fails in the model; in the source
    its exceptions are swallowed by the surrounding try/catch.
  * Fallible external calls (JSON parsing, pairing-code request, message
    sending, synchronous initialization) are parameterized by explicit
    outcome arguments, and thrown JavaScript exceptions become `Except`
    values; a `try`/`catch` becomes a `match` on the `Except`.
  * JSON objects are association lists with the JavaScript object-literal
    update semantics (`setKey`: replace in place, else append).
-/

/-- JSON values, as far as the assembler needs them: strings and objects.
Fragment files hold JSON objects. -/
inductive JVal where
  | jstr : String → JVal
  | jobj : List (String × JVal) → JVal

/-- A JSON object: key/value pairs in insertion order, as in JavaScript. -/
abbrev JObj := List (String × JVal)

/-- JavaScript object-literal field update: `{...o, k: v}` replaces the
first (only) binding of `k` in place, else appends `k` at the end. -/
def setKey : JObj → String → JVal → JObj
  | [], k, v => [(k, v)]
  | (k', v') :: rest, k, v =>
    if k' == k then (k, v) :: rest else (k', v') :: setKey rest k v

/-- Field lookup in a JSON object (first binding wins). -/
def lookupKey : JObj → String → Option JVal
  | [], _ => none
  | (ka, va) :: rest, k => if ka == k then some va else lookupKey rest k

mutual
/-- `JSON.stringify` on a JSON value (string escaping elided: the keys and
values the claims touch contain no escapes). -/
def stringifyVal : JVal → String
  | .jstr s => "\"" ++ s ++ "\""
  | .jobj o => "\x7b" ++ stringifyPairs o ++ "\x7d"

/-- `JSON.stringify` on the members of a JSON object. -/
def stringifyPairs : List (String × JVal) → String
  | [] => ""
  | [(k, v)] => "\"" ++ k ++ "\":" ++ stringifyVal v
  | (k, v) :: p :: rest =>
    "\"" ++ k ++ "\":" ++ stringifyVal v ++ "," ++ stringifyPairs (p :: rest)
end

/-- `JSON.stringify` of a whole JSON object. -/
def stringifyObj (o : JObj) : String := stringifyVal (.jobj o)

/-- `String.prototype.startsWith`, over the character lists. -/
def strStartsWith (s pre : String) : Bool := pre.toList.isPrefixOf s.toList

/-- The contents of one session storage directory, in directory-listing
order (`fs.readdirSync`).  A file maps to `some obj` when reading and
`JSON.parse` succeed with object `obj`, and to `none` when reading or
parsing it would throw. -/
structure FileSys where
  files : List (String × Option JObj)

/-- `fs.existsSync` + read + parse for one file name: `none` if the file
is absent, `some none` if reading/parsing throws, `some (some o)` if it
parses to `o`. -/
def findFile (fs : FileSys) (name : String) : Option (Option JObj) :=
  (fs.files.find? (fun p => p.1 == name)).map Prod.snd

/-- The merged credential object built at server.js lines 127-132:
`{...credsData, preKeys: preKeysData, senderKeys: senderKeysData,
timestamp: new Date().toISOString()}`. -/
def combinedCreds (credsData preKeysData senderKeysData : JObj) (now : String) : JObj :=
  setKey (setKey (setKey credsData "preKeys" (.jobj preKeysData))
    "senderKeys" (.jobj senderKeysData)) "timestamp" (.jstr now)

/-- `createCredsJson` (server.js lines 96-139).  `now` stands for
`new Date().toISOString()`.  The body's try/catch is the `Option` monad:
any read/parse throw short-circuits to `none` (the source's `null`). -/
def createCredsJson (fs : FileSys) (now : String) : Option String := do
  let credsData : JObj ←
    match findFile fs "creds.json" with
    | none => some []
    | some none => none
    | some (some o) => some o
  let fileNames := fs.files.map Prod.fst
  let preKeysData : JObj ←
    match fileNames.find? (fun f => strStartsWith f "pre-key-") with
    | none => some []
    | some f =>
      match findFile fs f with
      | some (some o) => some o
      | _ => none
  let senderKeysData : JObj ←
    match fileNames.find? (fun f => strStartsWith f "sender-key-") with
    | none => some []
    | some f =>
      match findFile fs f with
      | some (some o) => some o
      | _ => none
  some (stringifyObj (combinedCreds credsData preKeysData senderKeysData now))

theorem lookupKey_setKey_self (o : JObj) (k : String) (v : JVal) :
    lookupKey (setKey o k v) k = some v := by
  induction o with
  | nil => simp [setKey, lookupKey]
  | cons p rest ih =>
    obtain ⟨ka, va⟩ := p
    by_cases h : ka = k
    · subst h
      simp [setKey, lookupKey]
    · have hb : (ka == k) = false := by simp [h]
      simp only [setKey, hb, if_false, lookupKey]
      exact ih

theorem lookupKey_setKey_ne (o : JObj) (k k2 : String) (v : JVal) (h : k ≠ k2) :
    lookupKey (setKey o k2 v) k = lookupKey o k := by
  have hk2k : (k2 == k) = false := by
    simp only [beq_eq_false_iff_ne, ne_eq]
    exact fun hh => h hh.symm
  induction o with
  | nil => simp [setKey, lookupKey, hk2k]
  | cons p rest ih =>
    obtain ⟨ka, va⟩ := p
    by_cases hka : ka = k2
    · subst hka
      simp [setKey, lookupKey, hk2k]
    · have hb : (ka == k2) = false := by simp [hka]
      simp only [setKey, hb, if_false, lookupKey]
      by_cases hk : ka = k
      · simp [hk]
      · have hbk : (ka == k) = false := by simp [hk]
        simp [hbk, ih]

/-- A session record as stored in `activeSessions` (server.js lines
197-202).  `sockId` stands for the `sock` reference; the `saveCreds`
callback is opaque and carries no observable state, so it is omitted. -/
structure Session where
  sockId : Nat
  sessionPath : String
  connected : Bool
deriving DecidableEq

/-- Ledger entry for one protocol connection created by `makeWASocket`:
which phone number it was opened for and whether it has been ended
(by `sock.end()` or by the transport closing). -/
structure Sock where
  id : Nat
  phoneNumber : String
  ended : Bool
deriving DecidableEq

/-- One message passed to `sock.sendMessage` (jid, text), together with
which socket sent it and the `setTimeout` pacing delay preceding it. -/
structure SentMsg where
  viaSock : Nat
  jid : String
  text : String
  delayBeforeMs : Nat
deriving DecidableEq

/-- Events emitted through Socket.IO (`io.emit` / `socket.emit`).  The
`errorN` payload's phone number is `none` for the validation errors that
are emitted without one. -/
inductive Notif where
  | connectionStatus (phoneNumber status : String)
  | pairingCode (phoneNumber code : String)
  | sessionReady (phoneNumber message : String)
  | errorN (phoneNumber : Option String) (message : String)
deriving DecidableEq

/-- The deferred actions scheduled with `setTimeout` in server.js. -/
inductive TimerAction where
  | pairingRequest (phoneNumber : String) (sockId : Nat)
  | stabilizeSession (phoneNumber : String) (sockId : Nat) (sessionPath : String)
  | retireSession (phoneNumber : String) (sessionPath : String)
  | retryInit (phoneNumber : String)
  | deleteFile (filePath : String)
deriving DecidableEq

/-- The process-wide state of server.js: the `activeSessions` map, the
socket ledger, the session directories and loose files on disk, the
pending timers (delay in ms, action) and the emitted notifications. -/
structure ServerState where
  activeSessions : List (String × Session)
  socks : List Sock
  nextSockId : Nat
  dirs : List String
  diskFiles : List String
  timers : List (Nat × TimerAction)
  notifs : List Notif
  sentMessages : List SentMsg
deriving DecidableEq

/-- The state at process start: empty map, nothing on disk yet. -/
def initialState : ServerState :=
  { activeSessions := [], socks := [], nextSockId := 0, dirs := [],
    diskFiles := [], timers := [], notifs := [], sentMessages := [] }

/-- `Map.prototype.get`. -/
def mapGet : List (String × Session) → String → Option Session
  | [], _ => none
  | (ka, s) :: rest, k => if ka == k then some s else mapGet rest k

/-- `Map.prototype.has`. -/
def mapHas (m : List (String × Session)) (k : String) : Bool :=
  (mapGet m k).isSome

/-- `Map.prototype.set`: replace the binding in place, else append. -/
def mapSet : List (String × Session) → String → Session → List (String × Session)
  | [], k, v => [(k, v)]
  | (ka, s) :: rest, k, v =>
    if ka == k then (k, v) :: rest else (ka, s) :: mapSet rest k v

/-- `Map.prototype.delete`. -/
def mapDelete (m : List (String × Session)) (k : String) : List (String × Session) :=
  m.filter (fun p => !(p.1 == k))

/-- `sock.end()` on handle `i`: mark it ended in the ledger. -/
def endSock (socks : List Sock) (i : Nat) : List Sock :=
  socks.map (fun s => if s.id == i then { s with ended := true } else s)

/-- `io.emit`/`socket.emit`: append a notification. -/
def emit (n : Notif) (st : ServerState) : ServerState :=
  { st with notifs := st.notifs ++ [n] }

/-- `phoneNumber.replace(/\D/g, '')`: keep the digits. -/
def cleanPhone (s : String) : String := ⟨s.toList.filter Char.isDigit⟩

/-- `getSessionPath` (server.js lines 91-93); `sessionsDir` is rendered
as the relative path `sessions`. -/
def getSessionPath (phoneNumber : String) : String :=
  "sessions/session_" ++ phoneNumber

/-- The fixed application-defined pairing code (server.js line 208). -/
def customPairCode : String := "SAMUEL01"

/-- The instructions message of `sendSessionViaWhatsApp` (lines 147-153). -/
def instructionsMessage : String :=
  "🔐 *WhatsApp Session Generated Successfully*\n\n" ++
  "📱 *Instructions:*\n" ++
  "1. Save the next message as \"creds.json\"\n" ++
  "2. Use it in your WhatsApp bot project\n" ++
  "3. Keep it secure and don\x27t share\n\n" ++
  "⚠️ *Important:* This session is tied to this device. If you logout from WhatsApp, you\x27ll need to generate a new session.\n\n" ++
  "The creds.json content will be sent in the next message..."

/-- Which of the two awaited `sock.sendMessage` calls of
`sendSessionViaWhatsApp` throws, if any. -/
inductive SendOutcome where
  | sendOk
  | failFirst
  | failSecond
deriving DecidableEq

/-- `sendSessionViaWhatsApp` (server.js lines 142-170): two sequential
messages to `phoneNumber + '@s.whatsapp.net'` over socket `sockId` — the
instructions, then after a 2000 ms delay the artifact text unchanged.
Its try/catch converts a throw from either send into `false`. -/
def sendSessionViaWhatsApp (sockId : Nat) (phoneNumber sessionData : String)
    (outcome : SendOutcome) (st : ServerState) : ServerState × Bool :=
  let jid := phoneNumber ++ "@s.whatsapp.net"
  match outcome with
  | .failFirst => (st, false)
  | .failSecond =>
    ({ st with sentMessages := st.sentMessages ++ [⟨sockId, jid, instructionsMessage, 0⟩] },
     false)
  | .sendOk =>
    ({ st with sentMessages := st.sentMessages ++
        [⟨sockId, jid, instructionsMessage, 0⟩, ⟨sockId, jid, sessionData, 2000⟩] },
     true)

/-- `initializeWhatsApp` (server.js lines 173-307), here `initWhatsApp`.
`registered` is `sock.authState.creds.registered`; `initFails` injects a
throw from the synchronous initialization portion (directory creation,
`useMultiFileAuthState`, `fetchLatestBaileysVersion`, `makeWASocket`):
the catch at lines 302-306 emits an error notification scoped to the
phone number and re-throws (`Except.error`).  On success it creates the
session directory if absent, opens a fresh socket, registers the record
(`activeSessions.set`), and, when the account is not yet registered,
schedules the pairing-code request 3000 ms out.  The `connection.update`
subscription is modelled by `handleConnectionUpdate` below; the returned
socket id is the `Except.ok` payload. -/
def initWhatsApp (phoneNumber : String) (registered initFails : Bool)
    (st : ServerState) : ServerState × Except Unit Nat :=
  if initFails then
    (emit (.errorN (some phoneNumber) "Failed to initialize WhatsApp connection") st,
     .error ())
  else
    let sessionPath := getSessionPath phoneNumber
    let sockId := st.nextSockId
    ({ st with
        dirs := if st.dirs.contains sessionPath then st.dirs else st.dirs ++ [sessionPath],
        socks := st.socks ++ [⟨sockId, phoneNumber, false⟩],
        nextSockId := sockId + 1,
        activeSessions := mapSet st.activeSessions phoneNumber ⟨sockId, sessionPath, false⟩,
        timers := if registered then st.timers
          else st.timers ++ [(3000, .pairingRequest phoneNumber sockId)] },
     .ok sockId)

/-- The duplicated eviction block of both entry points (server.js lines
340-350 and 377-387): if a record exists, end its socket (errors from
`end()` are swallowed by the inner try/catch) and delete the record.
The source's `has` check followed by `get` is one `Option` match here. -/
def cleanupExistingSession (phoneNumber : String) (st : ServerState) : ServerState :=
  match mapGet st.activeSessions phoneNumber with
  | some existing =>
    { st with socks := endSock st.socks existing.sockId,
              activeSessions := mapDelete st.activeSessions phoneNumber }
  | none => st

/-- The `generateSession` socket handler (server.js lines 323-358).
`phoneNumber?` is the request payload's field; JavaScript treats the
empty string as missing (`!phoneNumber`).  Rejects identifiers whose
digit-normalized form is shorter than 10, evicts a conflicting record,
emits `initializing` and runs `initWhatsApp`; a re-thrown initialization
failure is caught and reported as `Failed to generate session`. -/
def handleGenerateSession (phoneNumber? : Option String) (registered initFails : Bool)
    (st : ServerState) : ServerState :=
  match phoneNumber? with
  | none => emit (.errorN none "Phone number is required") st
  | some phoneNumber =>
    if phoneNumber == "" then emit (.errorN none "Phone number is required") st
    else
      let clean := cleanPhone phoneNumber
      if clean.length < 10 then emit (.errorN none "Invalid phone number format") st
      else
        let st1 := cleanupExistingSession clean st
        let st2 := emit (.connectionStatus clean "initializing") st1
        match initWhatsApp clean registered initFails st2 with
        | (st3, .ok _) => st3
        | (st3, .error _) => emit (.errorN (some clean) "Failed to generate session") st3

/-- The three HTTP responses `POST /api/generate-session` can produce. -/
inductive ApiResult where
  | badRequest (msg : String)
  | okStarted (phoneNumber : String)
  | serverError (msg : String)
deriving DecidableEq

/-- `POST /api/generate-session` (server.js lines 366-395).  Note: unlike
the socket handler it performs no minimum-length check on the
digit-normalized phone number. -/
def handlePostGenerateSession (phoneNumber? : Option String) (registered initFails : Bool)
    (st : ServerState) : ServerState × ApiResult :=
  match phoneNumber? with
  | none => (st, .badRequest "Phone number is required")
  | some phoneNumber =>
    if phoneNumber == "" then (st, .badRequest "Phone number is required")
    else
      let clean := cleanPhone phoneNumber
      let st1 := cleanupExistingSession clean st
      match initWhatsApp clean registered initFails st1 with
      | (st2, .ok _) => (st2, .okStarted clean)
      | (st2, .error _) => (st2, .serverError "Failed to generate session")

/-- The `connection` field of a `connection.update` event.  For `close`,
`loggedOut` says whether `lastDisconnect.error.output.statusCode` equals
`DisconnectReason.loggedOut`. -/
inductive ConnEvent where
  | close (loggedOut : Bool)
  | openEv
  | connecting
deriving DecidableEq

/-- The `connection.update` listener registered by `initWhatsApp`
(server.js lines 220-296).  `phoneNumber`, `sockId` and `sessionPath`
are the values captured by the closure.  On `close` the transport has
shut the underlying socket, so the ledger marks it ended; a non-logout
close emits `reconnecting`, deletes the record and schedules one retry
5000 ms out, a logout close emits `logged_out` and deletes the record
with no retry.  On `open` it emits `connected`, flips the current
record's `connected` flag and schedules the stabilization handler
3000 ms out.  On `connecting` it only emits a status. -/
def handleConnectionUpdate (phoneNumber : String) (sockId : Nat) (sessionPath : String)
    (ev : ConnEvent) (st : ServerState) : ServerState :=
  match ev with
  | .close loggedOut =>
    let st0 := { st with socks := endSock st.socks sockId }
    if !loggedOut then
      let st1 := emit (.connectionStatus phoneNumber "reconnecting") st0
      { st1 with activeSessions := mapDelete st1.activeSessions phoneNumber,
                 timers := st1.timers ++ [(5000, .retryInit phoneNumber)] }
    else
      let st1 := emit (.connectionStatus phoneNumber "logged_out") st0
      { st1 with activeSessions := mapDelete st1.activeSessions phoneNumber }
  | .openEv =>
    let st1 := emit (.connectionStatus phoneNumber "connected") st
    match mapGet st1.activeSessions phoneNumber with
    | some session =>
      { st1 with
          activeSessions := mapSet st1.activeSessions phoneNumber { session with connected := true },
          timers := st1.timers ++ [(3000, .stabilizeSession phoneNumber sockId sessionPath)] }
    | none => st1
  | .connecting => emit (.connectionStatus phoneNumber "connecting") st

/-- The pairing-code `setTimeout` callback (server.js lines 206-216).
`codeResult` is the outcome of `sock.requestPairingCode` with the fixed
`customPairCode`; a throw (`none`) is caught and reported through the
gateway, never re-thrown. -/
def firePairing (phoneNumber : String) (sockId : Nat) (codeResult : Option String)
    (st : ServerState) : ServerState :=
  match codeResult with
  | some pairingCode => emit (.pairingCode phoneNumber pairingCode) st
  | none => emit (.errorN (some phoneNumber) "Failed to generate custom pairing code") st

/-- The body of the stabilization `setTimeout` callback (server.js lines
247-291), inside its try.  `dirContents` is what the protocol layer has
flushed under `sessionPath` by fire time, `now` the current ISO time,
`handlerFault` injects an unexpected throw from the handler body. -/
def stabilizeBody (phoneNumber : String) (sockId : Nat) (sessionPath : String)
    (dirContents : FileSys) (now : String) (outcome : SendOutcome) (handlerFault : Bool)
    (st : ServerState) : Except Unit ServerState :=
  if handlerFault then .error () else
  .ok (match createCredsJson dirContents now with
    | some sessionData =>
      match sendSessionViaWhatsApp sockId phoneNumber sessionData outcome st with
      | (st1, true) =>
        let st2 := emit (.sessionReady phoneNumber
          "Session sent to your WhatsApp! Check your messages.") st1
        { st2 with timers := st2.timers ++ [(10000, .retireSession phoneNumber sessionPath)] }
      | (st1, false) =>
        emit (.errorN (some phoneNumber) "Failed to send session via WhatsApp") st1
    | none => emit (.errorN (some phoneNumber) "Error creating session file") st)

/-- The stabilization `setTimeout` callback with its catch (lines
287-290): a throw from the body is caught and surfaced as the
`Error processing session` notification, never re-thrown. -/
def fireStabilize (phoneNumber : String) (sockId : Nat) (sessionPath : String)
    (dirContents : FileSys) (now : String) (outcome : SendOutcome) (handlerFault : Bool)
    (st : ServerState) : ServerState :=
  match stabilizeBody phoneNumber sockId sessionPath dirContents now outcome handlerFault st with
  | .ok st1 => st1
  | .error _ => emit (.errorN (some phoneNumber) "Error processing session") st

/-- The retirement `setTimeout` callback (server.js lines 264-280):
if any record currently exists for the phone number, end that record's
socket and delete the record; then remove the session directory if it
exists.  Cleanup errors are swallowed by the catch (the model's cleanup
steps are total).  The `has`/`get` pair is one `Option` match. -/
def fireRetirement (phoneNumber sessionPath : String) (st : ServerState) : ServerState :=
  let st1 :=
    match mapGet st.activeSessions phoneNumber with
    | some session =>
      { st with socks := endSock st.socks session.sockId,
                activeSessions := mapDelete st.activeSessions phoneNumber }
    | none => st
  if st1.dirs.contains sessionPath then
    { st1 with dirs := st1.dirs.filter (fun d => !(d == sessionPath)) }
  else st1

/-- The reconnect `setTimeout` callback (server.js line 233):
`initializeWhatsApp(phoneNumber, io)` with no eviction and no check for
a newer record; a rejection goes to no caller. -/
def fireRetry (phoneNumber : String) (registered initFails : Bool)
    (st : ServerState) : ServerState :=
  (initWhatsApp phoneNumber registered initFails st).1

/-- Firing a pending timer consumes its entry. -/
def removeTimer (t : Nat × TimerAction) (st : ServerState) : ServerState :=
  { st with timers := st.timers.filter (fun u => decide (u ≠ t)) }

/-- The HTTP outcomes of `GET /download/:filename`. -/
inductive DlResult where
  | notFound
  | dlFailed
  | served
deriving DecidableEq

/-- Split a path string on `/`, the segment decomposition `path.join`
performs before normalizing (accumulator holds the current segment's
characters reversed). -/
def splitSlashGo : List Char → List Char → List String
  | [], cur => [String.mk cur.reverse]
  | c :: rest, cur =>
    if c == '/' then String.mk cur.reverse :: splitSlashGo rest []
    else splitSlashGo rest (c :: cur)

/-- Split a path string on `/`. -/
def splitSlash (s : String) : List String := splitSlashGo s.toList []

/-- `path.join`'s dot-segment normalization, left to right over the
segment list: `.` and empty segments drop, `..` removes the previous
segment when one exists and is not itself an unmatched `..`, otherwise
it is kept (a path above the server directory).  `acc` is the processed
prefix, reversed. -/
def normSegs : List String → List String → List String
  | acc, [] => acc.reverse
  | acc, seg :: rest =>
    if seg == "." || seg == "" then normSegs acc rest
    else if seg == ".." then
      match acc with
      | [] => normSegs [".."] rest
      | top :: accRest =>
        if top == ".." then normSegs (".." :: acc) rest
        else normSegs accRest rest
    else normSegs (seg :: acc) rest

/-- `path.join(sessionsDir, filename)` (server.js line 400), rendered
relative to the server directory (`__dirname`): the `sessions` segment
is prepended, the filename's own segments follow, and dot segments are
normalized, so traversal segments in the filename can resolve to a path
outside the sessions directory.  The empty result denotes the server
directory itself. -/
def joinSessionsDir (filename : String) : String :=
  String.intercalate "/" (normSegs [] ("sessions" :: splitSlash filename))

/-- `GET /download/:filename` (server.js lines 398-423).  The route
parameter is URL-decoded by Express, so it may contain `/` and dot
segments, and `path.join` resolves them (`joinSessionsDir`): the
resolved path may lie outside the sessions directory.  `fs.existsSync`
is membership in the disk model — loose files in `diskFiles`, session
directories in `dirs`, and the always-present server and sessions
directories; the model's filesystem scope is the server directory
subtree, so a path that resolves above it is treated as absent.
`res.download` invokes its callback with an error (the 500 branch) on a
directory and when the transfer fails (`downloadFails`); only a
successful download schedules the file's deletion 5000 ms out. -/
def handleDownload (filename : String) (downloadFails : Bool)
    (st : ServerState) : ServerState × DlResult :=
  let filePath := joinSessionsDir filename
  let isDir := filePath == "" || filePath == "sessions" || st.dirs.contains filePath
  if !(st.diskFiles.contains filePath || isDir) then (st, .notFound)
  else if isDir || downloadFails then (st, .dlFailed)
  else ({ st with timers := st.timers ++ [(5000, .deleteFile filePath)] }, .served)

/-- The deferred deletion callback of the download endpoint (lines
412-420): unlink the file if it still exists; errors are swallowed. -/
def fireDeleteFile (filePath : String) (st : ServerState) : ServerState :=
  if st.diskFiles.contains filePath then
    { st with diskFiles := st.diskFiles.filter (fun f => !(f == filePath)) }
  else st

/-- `true` when every ledger entry for handle `i` is marked ended. -/
def allEnded (socks : List Sock) (i : Nat) : Bool :=
  socks.all (fun s => !(s.id == i) || s.ended)

/-- Key uniqueness of the session store: at most one record per
identifier. -/
def StoreOk (m : List (String × Session)) : Prop :=
  (m.map Prod.fst).Nodup

theorem mapGet_mapSet_self (m : List (String × Session)) (k : String) (v : Session) :
    mapGet (mapSet m k v) k = some v := by
  induction m with
  | nil => simp [mapSet, mapGet]
  | cons p rest ih =>
    obtain ⟨ka, s⟩ := p
    by_cases h : ka = k
    · subst h
      simp [mapSet, mapGet]
    · have hb : (ka == k) = false := by simp [h]
      simp only [mapSet, hb, if_false, mapGet]
      exact ih

theorem mapGet_mapDelete (m : List (String × Session)) (k : String) :
    mapGet (mapDelete m k) k = none := by
  induction m with
  | nil => rfl
  | cons p rest ih =>
    obtain ⟨ka, s⟩ := p
    by_cases h : ka = k
    · have hb : (ka == k) = true := by simp [h]
      simpa [mapDelete, List.filter_cons, hb] using ih
    · have hb : (ka == k) = false := by simp [h]
      simpa [mapDelete, List.filter_cons, hb, mapGet] using ih

theorem mapHas_mapDelete (m : List (String × Session)) (k : String) :
    mapHas (mapDelete m k) k = false := by
  simp [mapHas, mapGet_mapDelete]

theorem mem_keys_mapSet (m : List (String × Session)) (k x : String) (v : Session)
    (hx : x ∈ (mapSet m k v).map Prod.fst) : x = k ∨ x ∈ m.map Prod.fst := by
  induction m with
  | nil =>
    simp [mapSet] at hx
    exact Or.inl hx
  | cons p rest ih =>
    obtain ⟨ka, s⟩ := p
    by_cases h : ka = k
    · have hb : (ka == k) = true := by simp [h]
      simp only [mapSet, hb, if_true, List.map, List.mem_cons] at hx
      rcases hx with hx | hx
      · exact Or.inl hx
      · exact Or.inr (List.mem_cons_of_mem _ hx)
    · have hb : (ka == k) = false := by simp [h]
      simp only [mapSet, hb, if_false, List.map, List.mem_cons] at hx
      rcases hx with hx | hx
      · exact Or.inr (by simp [hx])
      · rcases ih hx with hx | hx
        · exact Or.inl hx
        · exact Or.inr (List.mem_cons_of_mem _ hx)

theorem storeOk_mapSet (m : List (String × Session)) (k : String) (v : Session)
    (h : StoreOk m) : StoreOk (mapSet m k v) := by
  induction m with
  | nil => simp [StoreOk, mapSet]
  | cons p rest ih =>
    obtain ⟨ka, s⟩ := p
    simp only [StoreOk, List.map, List.nodup_cons] at h
    obtain ⟨hnot, hrest⟩ := h
    by_cases hk : ka = k
    · have hb : (ka == k) = true := by simp [hk]
      simp only [StoreOk, mapSet, hb, if_true, List.map, List.nodup_cons]
      exact ⟨hk ▸ hnot, hrest⟩
    · have hb : (ka == k) = false := by simp [hk]
      simp only [StoreOk, mapSet, hb, if_false, List.map, List.nodup_cons]
      refine ⟨fun hmem => ?_, ih hrest⟩
      rcases mem_keys_mapSet rest k ka v hmem with hx | hx
      · exact hk hx
      · exact hnot hx

theorem storeOk_mapDelete (m : List (String × Session)) (k : String)
    (h : StoreOk m) : StoreOk (mapDelete m k) := by
  exact h.sublist ((List.filter_sublist m).map Prod.fst)

theorem allEnded_endSock (socks : List Sock) (i : Nat) :
    allEnded (endSock socks i) i = true := by
  simp only [allEnded, endSock, List.all_map, List.all_eq_true]
  intro s _
  by_cases h : s.id = i
  · simp [Function.comp, h]
  · simp [Function.comp, h]

theorem not_mem_filter_self (l : List String) (a : String) :
    a ∉ l.filter (fun d => !(d == a)) := by
  intro hmem
  rcases List.mem_filter.mp hmem with ⟨_, hpa⟩
  simp at hpa

theorem cleanup_notifs (p : String) (st : ServerState) :
    (cleanupExistingSession p st).notifs = st.notifs := by
  cases hm : mapGet st.activeSessions p <;> simp [cleanupExistingSession, hm]

theorem cleanup_nextSockId (p : String) (st : ServerState) :
    (cleanupExistingSession p st).nextSockId = st.nextSockId := by
  cases hm : mapGet st.activeSessions p <;> simp [cleanupExistingSession, hm]

theorem cleanup_timers (p : String) (st : ServerState) :
    (cleanupExistingSession p st).timers = st.timers := by
  cases hm : mapGet st.activeSessions p <;> simp [cleanupExistingSession, hm]

theorem storeOk_cleanup (p : String) (st : ServerState)
    (h : StoreOk st.activeSessions) :
    StoreOk (cleanupExistingSession p st).activeSessions := by
  cases hm : mapGet st.activeSessions p with
  | none => simpa [cleanupExistingSession, hm] using h
  | some s =>
    simp only [cleanupExistingSession, hm]
    exact storeOk_mapDelete _ _ h

theorem storeOk_initWhatsApp (p : String) (reg f : Bool) (st : ServerState)
    (h : StoreOk st.activeSessions) :
    StoreOk ((initWhatsApp p reg f st).1).activeSessions := by
  cases f with
  | true => simpa [initWhatsApp, emit] using h
  | false =>
    simp only [initWhatsApp, Bool.false_eq_true, if_false]
    exact storeOk_mapSet _ _ _ h

theorem storeOk_handleGenerateSession (pn? : Option String) (reg f : Bool)
    (st : ServerState) (h : StoreOk st.activeSessions) :
    StoreOk (handleGenerateSession pn? reg f st).activeSessions := by
  cases pn? with
  | none => simpa [handleGenerateSession, emit] using h
  | some p =>
    cases hempty : (p == "") with
    | true => simpa [handleGenerateSession, hempty, emit] using h
    | false =>
      by_cases hlen : (cleanPhone p).length < 10
      · simpa [handleGenerateSession, hempty, hlen, emit] using h
      · have hmid : StoreOk ((initWhatsApp (cleanPhone p) reg f
            (emit (.connectionStatus (cleanPhone p) "initializing")
              (cleanupExistingSession (cleanPhone p) st))).1).activeSessions := by
          apply storeOk_initWhatsApp
          simpa [emit] using storeOk_cleanup (cleanPhone p) st h
        cases f with
        | true => simpa [handleGenerateSession, hempty, hlen, initWhatsApp, emit] using hmid
        | false => simpa [handleGenerateSession, hempty, hlen, initWhatsApp, emit] using hmid

theorem storeOk_handlePostGenerateSession (pn? : Option String) (reg f : Bool)
    (st : ServerState) (h : StoreOk st.activeSessions) :
    StoreOk ((handlePostGenerateSession pn? reg f st).1).activeSessions := by
  cases pn? with
  | none => simpa [handlePostGenerateSession] using h
  | some p =>
    cases hempty : (p == "") with
    | true => simpa [handlePostGenerateSession, hempty] using h
    | false =>
      have hmid : StoreOk ((initWhatsApp (cleanPhone p) reg f
          (cleanupExistingSession (cleanPhone p) st)).1).activeSessions := by
        apply storeOk_initWhatsApp
        exact storeOk_cleanup (cleanPhone p) st h
      cases f with
      | true => simpa [handlePostGenerateSession, hempty, initWhatsApp, emit] using hmid
      | false => simpa [handlePostGenerateSession, hempty, initWhatsApp, emit] using hmid

theorem storeOk_handleConnectionUpdate (p : String) (i : Nat) (path : String)
    (ev : ConnEvent) (st : ServerState) (h : StoreOk st.activeSessions) :
    StoreOk (handleConnectionUpdate p i path ev st).activeSessions := by
  cases ev with
  | close loggedOut =>
    cases loggedOut with
    | true =>
      simp only [handleConnectionUpdate, Bool.not_true, Bool.false_eq_true, if_false]
      exact storeOk_mapDelete _ _ (by simpa [emit] using h)
    | false =>
      simp only [handleConnectionUpdate, Bool.not_false, if_true]
      exact storeOk_mapDelete _ _ (by simpa [emit] using h)
  | openEv =>
    cases hm : mapGet st.activeSessions p with
    | none => simpa [handleConnectionUpdate, emit, hm] using h
    | some s =>
      simp only [handleConnectionUpdate, emit, hm]
      exact storeOk_mapSet _ _ _ h
  | connecting => simpa [handleConnectionUpdate, emit] using h

theorem storeOk_fireRetirement (p path : String) (st : ServerState)
    (h : StoreOk st.activeSessions) :
    StoreOk (fireRetirement p path st).activeSessions := by
  cases hm : mapGet st.activeSessions p with
  | none =>
    simp only [fireRetirement, hm]
    split <;> simpa using h
  | some s =>
    simp only [fireRetirement, hm]
    split <;> exact storeOk_mapDelete _ _ h

theorem storeOk_fireRetry (p : String) (reg f : Bool) (st : ServerState)
    (h : StoreOk st.activeSessions) :
    StoreOk (fireRetry p reg f st).activeSessions :=
  storeOk_initWhatsApp p reg f st h

/-- The example identifier used by the concrete scenarios below. -/
def examplePhone : String := "1234567890"

/-- Its session storage path. -/
def examplePath : String := getSessionPath examplePhone

/-- Scenario step shared by the traces below: a first accepted
`generateSession` request, creating socket 0. -/
def genState1 : ServerState :=
  handleGenerateSession (some examplePhone) false false initialState

/-- Reconnect trace: the transport drops socket 0's connection
(`close` with a non-logout reason). -/
def reconState2 : ServerState :=
  handleConnectionUpdate examplePhone 0 examplePath (.close false) genState1

/-- Reconnect trace: a second accepted request arrives before the retry
backoff elapses, creating socket 1 (the store was empty, so nothing is
evicted). -/
def reconState3 : ServerState :=
  handleGenerateSession (some examplePhone) false false reconState2

/-- Reconnect trace: the scheduled retry fires (consuming its pending
timer entry), creating socket 2. -/
def reconState4 : ServerState :=
  fireRetry examplePhone false false
    (removeTimer (5000, .retryInit examplePhone) reconState3)

/-- C1 counterexample: after an accepted request, a non-logout close, a
second accepted request and the firing of the retry that the close
scheduled, sockets 1 and 2 are both live (`ended = false`) for the same
identifier: the retry registered a fresh connection without closing the
superseded one, so "at no point do two live connections exist for the
same identifier" is false.  The first conjunct shows the fired retry was
genuinely pending. -/
theorem twoLiveConnectionsReachable :
    (5000, TimerAction.retryInit examplePhone) ∈ reconState3.timers ∧
    Sock.mk 1 examplePhone false ∈ reconState4.socks ∧
    Sock.mk 2 examplePhone false ∈ reconState4.socks ∧
    mapGet reconState4.activeSessions examplePhone =
      some ⟨2, examplePath, false⟩ := by decide

/-- C1, amended: the Session Store keeps at most one record per
identifier (every store-mutating handler preserves key uniqueness), and
an accepted session request for an identifier with an existing record
ends the old record's socket and removes the record (the eviction step)
strictly before registering the new record; but the reconnect retry can
still leave two live connections for one identifier
(`twoLiveConnectionsReachable`). -/
theorem sessionStoreUniqueAndRequestEvicts :
    (∀ (pn? : Option String) (reg f : Bool) (st : ServerState),
        StoreOk st.activeSessions →
        StoreOk (handleGenerateSession pn? reg f st).activeSessions) ∧
    (∀ (pn? : Option String) (reg f : Bool) (st : ServerState),
        StoreOk st.activeSessions →
        StoreOk ((handlePostGenerateSession pn? reg f st).1).activeSessions) ∧
    (∀ (p : String) (i : Nat) (path : String) (ev : ConnEvent) (st : ServerState),
        StoreOk st.activeSessions →
        StoreOk (handleConnectionUpdate p i path ev st).activeSessions) ∧
    (∀ (p path : String) (st : ServerState),
        StoreOk st.activeSessions →
        StoreOk (fireRetirement p path st).activeSessions) ∧
    (∀ (p : String) (reg f : Bool) (st : ServerState),
        StoreOk st.activeSessions →
        StoreOk (fireRetry p reg f st).activeSessions) ∧
    (∀ (p : String) (reg : Bool) (st : ServerState) (old : Session),
        (p == "") = false →
        ¬ (cleanPhone p).length < 10 →
        mapGet st.activeSessions (cleanPhone p) = some old →
        allEnded (cleanupExistingSession (cleanPhone p) st).socks old.sockId = true ∧
        mapHas (cleanupExistingSession (cleanPhone p) st).activeSessions (cleanPhone p) = false ∧
        handleGenerateSession (some p) reg false st =
          (initWhatsApp (cleanPhone p) reg false
            (emit (.connectionStatus (cleanPhone p) "initializing")
              (cleanupExistingSession (cleanPhone p) st))).1 ∧
        mapGet (handleGenerateSession (some p) reg false st).activeSessions (cleanPhone p) =
          some ⟨st.nextSockId, getSessionPath (cleanPhone p), false⟩) := by
  refine ⟨storeOk_handleGenerateSession, storeOk_handlePostGenerateSession,
    storeOk_handleConnectionUpdate, storeOk_fireRetirement, storeOk_fireRetry,
    fun p reg st old hempty hlen hget => ?_⟩
  have h3 : handleGenerateSession (some p) reg false st =
      (initWhatsApp (cleanPhone p) reg false
        (emit (.connectionStatus (cleanPhone p) "initializing")
          (cleanupExistingSession (cleanPhone p) st))).1 := by
    simp [handleGenerateSession, hempty, hlen, initWhatsApp]
  refine ⟨?_, ?_, h3, ?_⟩
  · simp only [cleanupExistingSession, hget]
    exact allEnded_endSock _ _
  · simp only [cleanupExistingSession, hget]
    exact mapHas_mapDelete _ _
  · rw [h3]
    simp only [initWhatsApp, Bool.false_eq_true, if_false, emit]
    rw [cleanup_nextSockId]
    exact mapGet_mapSet_self _ _ _

/-- A state holding one connected record for the example identifier,
used to instantiate `sessionStoreUniqueAndRequestEvicts`. -/
def evictWitnessState : ServerState :=
  { initialState with
      activeSessions := [(examplePhone, ⟨0, examplePath, true⟩)],
      socks := [⟨0, examplePhone, false⟩],
      nextSockId := 1 }

/-- Witness for `sessionStoreUniqueAndRequestEvicts` at a concrete
state with an existing record. -/
theorem sessionStoreUniqueAndRequestEvictsWitness :
    StoreOk (handleGenerateSession (some examplePhone) false false evictWitnessState).activeSessions ∧
    allEnded (cleanupExistingSession examplePhone evictWitnessState).socks 0 = true ∧
    mapHas (cleanupExistingSession examplePhone evictWitnessState).activeSessions examplePhone = false ∧
    mapGet (handleGenerateSession (some examplePhone) false false evictWitnessState).activeSessions
      examplePhone = some ⟨1, examplePath, false⟩ := by
  have h := sessionStoreUniqueAndRequestEvicts
  have h6 := h.2.2.2.2.2 examplePhone false evictWitnessState ⟨0, examplePath, true⟩
    (by decide) (by decide) (by decide)
  exact ⟨h.1 (some examplePhone) false false evictWitnessState (by unfold StoreOk; decide),
    h6.1, h6.2.1, h6.2.2.2⟩

/-- C3 counterexample: at the moment the scheduled retry fires, a newer
record (socket 1) exists in the Store for the identifier, yet the retry
still creates a fresh record (socket 2), replacing the newer record
without closing its socket — refuting "the retry creates a fresh record
only if no newer record for that identifier already exists". -/
theorem retryOverwritesNewerRecord :
    (5000, TimerAction.retryInit examplePhone) ∈ reconState3.timers ∧
    mapGet reconState3.activeSessions examplePhone = some ⟨1, examplePath, false⟩ ∧
    mapGet reconState4.activeSessions examplePhone = some ⟨2, examplePath, false⟩ ∧
    Sock.mk 1 examplePhone false ∈ reconState4.socks := by decide

/-- C3, amended: a close event with a non-logout reason emits a
`reconnecting` status, removes the current record from the Store closing
nothing further (only the handle the transport already shut is marked
ended), and schedules exactly one retry after the fixed 5000 ms backoff;
at fire time the retry creates a fresh record unconditionally, replacing
any newer record for the identifier without closing it
(`retryOverwritesNewerRecord`). -/
theorem nonLogoutCloseSchedulesOneRetry :
    (∀ (p : String) (i : Nat) (path : String) (st : ServerState),
        handleConnectionUpdate p i path (.close false) st =
          { st with
              socks := endSock st.socks i,
              notifs := st.notifs ++ [.connectionStatus p "reconnecting"],
              activeSessions := mapDelete st.activeSessions p,
              timers := st.timers ++ [(5000, .retryInit p)] }) ∧
    (∀ (p : String) (reg : Bool) (st : ServerState),
        mapGet (fireRetry p reg false st).activeSessions p =
          some ⟨st.nextSockId, getSessionPath p, false⟩) := by
  constructor
  · intro p i path st
    simp [handleConnectionUpdate, emit]
  · intro p reg st
    simp only [fireRetry, initWhatsApp, Bool.false_eq_true, if_false]
    exact mapGet_mapSet_self _ _ _

/-- Retirement trace: socket 0's connection opens; the record is marked
connected and the stabilization handler is scheduled. -/
def retireState2 : ServerState :=
  handleConnectionUpdate examplePhone 0 examplePath .openEv genState1

/-- Retirement trace: the stabilization handler fires on an empty
directory; assembly and delivery succeed and the retirement is scheduled
10000 ms out. -/
def retireState3 : ServerState :=
  fireStabilize examplePhone 0 examplePath ⟨[]⟩ "2024-01-01T00:00:00.000Z" .sendOk false
    (removeTimer (3000, .stabilizeSession examplePhone 0 examplePath) retireState2)

/-- Retirement trace: a second accepted request supersedes the delivered
session before the retirement fires (socket 0 is evicted, socket 1 is
the newer session). -/
def retireState4 : ServerState :=
  handleGenerateSession (some examplePhone) false false retireState3

/-- Retirement trace: the pending retirement fires. -/
def retireState5 : ServerState :=
  fireRetirement examplePhone examplePath
    (removeTimer (10000, .retireSession examplePhone examplePath) retireState4)

/-- C2 counterexample: the retirement scheduled for the delivered
session (socket 0) fires after a newer session (socket 1) has superseded
it; it finds *some* record for the identifier, closes the newer
session's socket, removes the newer record and deletes the newer
session's storage directory — refuting "if the record has been removed
or superseded ... the retirement action performs no teardown". -/
theorem retirementTearsDownNewerSession :
    (10000, TimerAction.retireSession examplePhone examplePath) ∈ retireState3.timers ∧
    mapGet retireState4.activeSessions examplePhone = some ⟨1, examplePath, false⟩ ∧
    Sock.mk 1 examplePhone false ∈ retireState4.socks ∧
    Sock.mk 1 examplePhone true ∈ retireState5.socks ∧
    mapHas retireState5.activeSessions examplePhone = false ∧
    retireState5.dirs.contains examplePath = false := by decide

/-- C2, amended: the retirement action is scheduled exactly once per
completed delivery; at fire time it checks only that *some* record
exists for the identifier — if none does, it touches neither the store
nor the sockets, but if any record exists (including a newer superseding
one) it closes that record's socket and removes it; in every case the
storage directory for the identifier is deleted unconditionally
(`retirementTearsDownNewerSession`). -/
theorem retirementScheduledOnceChecksOnlyExistence :
    (∀ (p : String) (i : Nat) (path : String) (d : FileSys) (now : String) (st : ServerState),
        (createCredsJson d now).isSome = true →
        (fireStabilize p i path d now .sendOk false st).timers =
          st.timers ++ [(10000, .retireSession p path)]) ∧
    (∀ (p path : String) (st : ServerState),
        mapGet st.activeSessions p = none →
        (fireRetirement p path st).activeSessions = st.activeSessions ∧
        (fireRetirement p path st).socks = st.socks ∧
        path ∉ (fireRetirement p path st).dirs) ∧
    (∀ (p path : String) (st : ServerState) (s : Session),
        mapGet st.activeSessions p = some s →
        (fireRetirement p path st).socks = endSock st.socks s.sockId ∧
        (fireRetirement p path st).activeSessions = mapDelete st.activeSessions p ∧
        path ∉ (fireRetirement p path st).dirs) := by
  refine ⟨fun p i path d now st h => ?_, fun p path st hm => ?_, fun p path st s hm => ?_⟩
  · obtain ⟨data, hdata⟩ := Option.isSome_iff_exists.mp h
    simp [fireStabilize, stabilizeBody, hdata, sendSessionViaWhatsApp, emit]
  · refine ⟨?_, ?_, ?_⟩
    · simp only [fireRetirement, hm]
      split <;> rfl
    · simp only [fireRetirement, hm]
      split <;> rfl
    · simp only [fireRetirement, hm]
      split
      · exact not_mem_filter_self _ _
      · intro hmem
        rename_i hc
        exact hc (by simpa [List.contains] using List.elem_iff.mpr hmem)
  · refine ⟨?_, ?_, ?_⟩
    · simp only [fireRetirement, hm]
      split <;> rfl
    · simp only [fireRetirement, hm]
      split <;> rfl
    · simp only [fireRetirement, hm]
      split
      · exact not_mem_filter_self _ _
      · intro hmem
        rename_i hc
        exact hc (by simpa [List.contains] using List.elem_iff.mpr hmem)

/-- Witness for `retirementScheduledOnceChecksOnlyExistence` at concrete
inputs: a successful delivery schedules the one retirement, and firing
retirement against a state holding a record empties the store and the
directory is gone. -/
theorem retirementChecksOnlyExistenceWitness :
    (fireStabilize examplePhone 0 examplePath ⟨[]⟩ "T" .sendOk false initialState).timers =
      [(10000, TimerAction.retireSession examplePhone examplePath)] ∧
    (fireRetirement examplePhone examplePath evictWitnessState).activeSessions = [] ∧
    examplePath ∉ (fireRetirement examplePhone examplePath evictWitnessState).dirs := by
  have h := retirementScheduledOnceChecksOnlyExistence
  have h1 := h.1 examplePhone 0 examplePath ⟨[]⟩ "T" initialState (by decide)
  have h3 := h.2.2 examplePhone examplePath evictWitnessState ⟨0, examplePath, true⟩ (by decide)
  refine ⟨by simpa using h1, ?_, h3.2.2⟩
  rw [h3.2.1]
  decide

/-- C4 counterexample: `POST /api/generate-session` with phone number
`123` — fewer than 10 digits after digit-normalization — is accepted:
the response reports success and a record for `123` is registered in
the Store, because the REST entry point never checks the minimum
length. -/
theorem restAcceptsShortIdentifier :
    (handlePostGenerateSession (some "123") false false initialState).2 = .okStarted "123" ∧
    mapHas (handlePostGenerateSession (some "123") false false
      initialState).1.activeSessions "123" = true := by decide

/-- C4, amended: a missing identifier is rejected with a client error
and no Store mutation on both entry points, and an identifier shorter
than 10 digits after digit-normalization is rejected with a client
error and no Store mutation on the WebSocket entry point only — the
REST endpoint accepts it and creates a session
(`restAcceptsShortIdentifier`). -/
theorem validationRejectsWithoutMutation :
    (∀ (reg f : Bool) (st : ServerState),
        handleGenerateSession none reg f st =
          emit (.errorN none "Phone number is required") st) ∧
    (∀ (p : String) (reg f : Bool) (st : ServerState),
        (p == "") = false → (cleanPhone p).length < 10 →
        handleGenerateSession (some p) reg f st =
          emit (.errorN none "Invalid phone number format") st) ∧
    (∀ (reg f : Bool) (st : ServerState),
        handlePostGenerateSession none reg f st =
          (st, .badRequest "Phone number is required")) := by
  refine ⟨fun reg f st => rfl, fun p reg f st hempty hlen => ?_, fun reg f st => rfl⟩
  simp [handleGenerateSession, hempty, hlen]

/-- Witness for `validationRejectsWithoutMutation`: the short identifier
`123` is rejected by the socket entry point with only an error
notification emitted and the state otherwise untouched. -/
theorem validationRejectsWithoutMutationWitness :
    handleGenerateSession (some "123") false false initialState =
      emit (.errorN none "Invalid phone number format") initialState :=
  validationRejectsWithoutMutation.2.1 "123" false false initialState
    (by decide) (by decide)

/-- C7: a close event whose disconnect reason is a logout emits the
`logged_out` status and removes the identifier's record within the same
(synchronous) handler invocation, and the pending-timer list is
unchanged — no reconnect retry is scheduled. -/
theorem logoutCloseRemovesImmediatelyNoRetry :
    ∀ (p : String) (i : Nat) (path : String) (st : ServerState),
      mapHas (handleConnectionUpdate p i path (.close true) st).activeSessions p = false ∧
      (handleConnectionUpdate p i path (.close true) st).notifs =
        st.notifs ++ [.connectionStatus p "logged_out"] ∧
      (handleConnectionUpdate p i path (.close true) st).timers = st.timers := by
  intro p i path st
  refine ⟨?_, ?_, ?_⟩
  · simp only [handleConnectionUpdate, emit, Bool.not_true, Bool.false_eq_true, if_false]
    exact mapHas_mapDelete _ _
  · simp [handleConnectionUpdate, emit]
  · simp [handleConnectionUpdate, emit]

/-- C6: a throw from the synchronous initialization portion of
`initWhatsApp` is caught, surfaced as an error notification scoped to
the identifier, and re-thrown to the immediate caller (`Except.error`);
the socket entry point — the immediate caller — catches the re-thrown
error and adds its own error notification; and the asynchronous
handlers (stabilization, pairing) catch their failures, surface them
only as notifications, and re-throw nothing (they return plain states,
with the injected fault routed to the catch branch). -/
theorem initFailureRethrownAsyncHandlersOnlyNotify :
    (∀ (p : String) (reg : Bool) (st : ServerState),
        (initWhatsApp p reg true st).2 = .error () ∧
        (initWhatsApp p reg true st).1 =
          emit (.errorN (some p) "Failed to initialize WhatsApp connection") st) ∧
    (∀ (p : String) (reg : Bool) (st : ServerState),
        (p == "") = false → ¬ (cleanPhone p).length < 10 →
        (handleGenerateSession (some p) reg true st).notifs =
          st.notifs ++
            [.connectionStatus (cleanPhone p) "initializing",
             .errorN (some (cleanPhone p)) "Failed to initialize WhatsApp connection",
             .errorN (some (cleanPhone p)) "Failed to generate session"]) ∧
    (∀ (p : String) (i : Nat) (path : String) (d : FileSys) (now : String)
        (outc : SendOutcome) (st : ServerState),
        fireStabilize p i path d now outc true st =
          emit (.errorN (some p) "Error processing session") st) ∧
    (∀ (p : String) (i : Nat) (st : ServerState),
        firePairing p i none st =
          emit (.errorN (some p) "Failed to generate custom pairing code") st) := by
  refine ⟨fun p reg st => ⟨rfl, rfl⟩, fun p reg st hempty hlen => ?_,
    fun p i path d now outc st => rfl, fun p i st => rfl⟩
  simp [handleGenerateSession, hempty, hlen, initWhatsApp, emit, cleanup_notifs]

/-- Witness for `initFailureRethrownAsyncHandlersOnlyNotify` at a
concrete failing initialization. -/
theorem initFailureRethrownWitness :
    (handleGenerateSession (some examplePhone) false true initialState).notifs =
      [.connectionStatus examplePhone "initializing",
       .errorN (some examplePhone) "Failed to initialize WhatsApp connection",
       .errorN (some examplePhone) "Failed to generate session"] := by
  rw [initFailureRethrownAsyncHandlersOnlyNotify.2.1 examplePhone false initialState
    (by decide) (by decide)]
  decide

/-- C8: on a successful assembly and delivery, exactly two sequential
messages go over the session's own socket to the requesting
identifier's jid — first the instructions, then after the fixed 2000 ms
pacing delay the artifact text verbatim — both for
`sendSessionViaWhatsApp` itself and as invoked by the stabilization
handler. -/
theorem deliverySendsTwoSequentialMessages :
    (∀ (i : Nat) (p data : String) (st : ServerState),
        sendSessionViaWhatsApp i p data .sendOk st =
          ({ st with sentMessages := st.sentMessages ++
              [⟨i, p ++ "@s.whatsapp.net", instructionsMessage, 0⟩,
               ⟨i, p ++ "@s.whatsapp.net", data, 2000⟩] }, true)) ∧
    (∀ (p : String) (i : Nat) (path : String) (d : FileSys) (now data : String)
        (st : ServerState),
        createCredsJson d now = some data →
        (fireStabilize p i path d now .sendOk false st).sentMessages =
          st.sentMessages ++
            [⟨i, p ++ "@s.whatsapp.net", instructionsMessage, 0⟩,
             ⟨i, p ++ "@s.whatsapp.net", data, 2000⟩]) := by
  refine ⟨fun i p data st => rfl, fun p i path d now data st h => ?_⟩
  simp [fireStabilize, stabilizeBody, h, sendSessionViaWhatsApp, emit]

/-- Witness for `deliverySendsTwoSequentialMessages`: the stabilization
handler on an empty directory sends the instructions and then the
assembled artifact verbatim. -/
theorem deliverySendsTwoSequentialMessagesWitness :
    (fireStabilize examplePhone 0 examplePath ⟨[]⟩ "T" .sendOk false
        initialState).sentMessages =
      [⟨0, "1234567890@s.whatsapp.net", instructionsMessage, 0⟩,
       ⟨0, "1234567890@s.whatsapp.net",
        "\x7b\"preKeys\":\x7b\x7d,\"senderKeys\":\x7b\x7d,\"timestamp\":\"T\"\x7d", 2000⟩] := by
  rw [deliverySendsTwoSequentialMessages.2 examplePhone 0 examplePath ⟨[]⟩ "T"
    "\x7b\"preKeys\":\x7b\x7d,\"senderKeys\":\x7b\x7d,\"timestamp\":\"T\"\x7d"
    initialState (by decide)]
  rfl

theorem option_bind_const_none (o : Option α) :
    o.bind (fun _ => (none : Option β)) = none := by
  cases o <;> rfl

/-- C5: `createCredsJson` never throws — it is a total function with an
`Option` result.  On a directory with no files it returns exactly the
empty base credentials merged with `preKeys = {}`, `senderKeys = {}`
and the timestamp; and whenever reading or parsing the base credentials
file, the first pre-key fragment, or the first sender-key fragment
throws, it returns `none` instead of raising. -/
theorem createCredsJsonSoftFailure :
    (∀ now : String,
        createCredsJson ⟨[]⟩ now =
          some (stringifyObj [("preKeys", .jobj []), ("senderKeys", .jobj []),
            ("timestamp", .jstr now)])) ∧
    (∀ (fs : FileSys) (now : String),
        findFile fs "creds.json" = some none → createCredsJson fs now = none) ∧
    (∀ (fs : FileSys) (now f : String),
        (fs.files.map Prod.fst).find? (fun g => strStartsWith g "pre-key-") = some f →
        findFile fs f = some none → createCredsJson fs now = none) ∧
    (∀ (fs : FileSys) (now f : String),
        (fs.files.map Prod.fst).find? (fun g => strStartsWith g "sender-key-") = some f →
        findFile fs f = some none → createCredsJson fs now = none) := by
  refine ⟨fun now => rfl, fun fs now hc => ?_, fun fs now f hp hf => ?_,
    fun fs now f hs hf => ?_⟩
  · simp [createCredsJson, hc]
  · simp [createCredsJson, hp, hf, option_bind_const_none]
    repeat' split
    all_goals rfl
  · simp [createCredsJson, hs, hf, option_bind_const_none]
    repeat' split
    all_goals rfl

/-- Witness for `createCredsJsonSoftFailure`: an unreadable base
credentials file and an unreadable pre-key fragment each yield `none`. -/
theorem createCredsJsonSoftFailureWitness :
    createCredsJson ⟨[("creds.json", none)]⟩ "T" = none ∧
    createCredsJson ⟨[("pre-key-1.json", none)]⟩ "T" = none := by
  exact ⟨createCredsJsonSoftFailure.2.1 ⟨[("creds.json", none)]⟩ "T" rfl,
    createCredsJsonSoftFailure.2.2.1 ⟨[("pre-key-1.json", none)]⟩ "T" "pre-key-1.json"
      rfl rfl⟩

/-- C9: in the merged artifact the `preKeys`, `senderKeys` and
`timestamp` fields always come from the pre-key fragment, the
sender-key fragment and the clock: the merge is ordered so these fields
overwrite any same-named fields of the base credentials, for every
base object; and `createCredsJson` serializes exactly this merge. -/
theorem fragmentFieldsOverrideBase :
    (∀ (base pre send : JObj) (now : String),
        lookupKey (combinedCreds base pre send now) "preKeys" = some (.jobj pre) ∧
        lookupKey (combinedCreds base pre send now) "senderKeys" = some (.jobj send) ∧
        lookupKey (combinedCreds base pre send now) "timestamp" = some (.jstr now)) ∧
    (∀ (base pre send : JObj) (now : String),
        createCredsJson ⟨[("creds.json", some base), ("pre-key-1.json", some pre),
          ("sender-key-1.json", some send)]⟩ now =
          some (stringifyObj (combinedCreds base pre send now))) := by
  constructor
  · intro base pre send now
    refine ⟨?_, ?_, ?_⟩
    · rw [combinedCreds, lookupKey_setKey_ne _ _ _ _ (by decide),
        lookupKey_setKey_ne _ _ _ _ (by decide), lookupKey_setKey_self]
    · rw [combinedCreds, lookupKey_setKey_ne _ _ _ _ (by decide), lookupKey_setKey_self]
    · rw [combinedCreds, lookupKey_setKey_self]
  · intro base pre send now
    rfl

/-- A state where the server directory holds `server.js` outside the
sessions directory and one exported session file inside it. -/
def traversalState : ServerState :=
  { initialState with diskFiles := ["server.js", "sessions/creds_123.json"] }

/-- C10 counterexample: for the request `GET /download/..%2Fserver.js`
(Express decodes the route parameter to `../server.js`) the resolved
path is `server.js`, a file that does **not** exist under the sessions
directory; the endpoint serves it instead of responding 404, schedules
its deletion, and the fired deletion removes a file outside the
sessions directory — refuting both the universal 404 and "performs no
filesystem modification". -/
theorem traversalServesOutsideSessionsDir :
    joinSessionsDir "../server.js" = "server.js" ∧
    (handleDownload "../server.js" false traversalState).2 = .served ∧
    (handleDownload "../server.js" false traversalState).1.timers =
      [(5000, .deleteFile "server.js")] ∧
    (fireDeleteFile "server.js"
      (handleDownload "../server.js" false traversalState).1).diskFiles =
      ["sessions/creds_123.json"] := by decide

/-- C10, amended: for every requested filename whose `path.join`-resolved
path exists neither as a file nor as a directory in the disk model, the
endpoint responds 404 and returns the state untouched (no filesystem
modification, nothing scheduled); for every successful download — the
resolved path is a file and the transfer succeeds — the served file,
which lies outside the sessions directory when the filename contains
traversal segments (`traversalServesOutsideSessionsDir`), has its
deletion scheduled after the fixed 5000 ms delay, and the fired
deletion removes it from disk. -/
theorem downloadMissing404ServedThenDeleted :
    (∀ (f : String) (dlFails : Bool) (st : ServerState),
        st.diskFiles.contains (joinSessionsDir f) = false →
        (joinSessionsDir f == "") = false →
        (joinSessionsDir f == "sessions") = false →
        st.dirs.contains (joinSessionsDir f) = false →
        handleDownload f dlFails st = (st, .notFound)) ∧
    (∀ (f : String) (st : ServerState),
        st.diskFiles.contains (joinSessionsDir f) = true →
        (joinSessionsDir f == "") = false →
        (joinSessionsDir f == "sessions") = false →
        st.dirs.contains (joinSessionsDir f) = false →
        (handleDownload f false st).2 = .served ∧
        (handleDownload f false st).1.diskFiles = st.diskFiles ∧
        (handleDownload f false st).1.timers =
          st.timers ++ [(5000, .deleteFile (joinSessionsDir f))] ∧
        joinSessionsDir f ∉
          (fireDeleteFile (joinSessionsDir f) (handleDownload f false st).1).diskFiles) := by
  constructor
  · intro f dlFails st h he hs hd
    have hmem : joinSessionsDir f ∉ st.diskFiles := by
      simpa [List.contains] using h
    have hdir : joinSessionsDir f ∉ st.dirs := by
      simpa [List.contains] using hd
    simp [handleDownload, h, he, hs, hd, hmem, hdir]
  · intro f st h he hs hd
    have hmem : joinSessionsDir f ∈ st.diskFiles := by
      simpa [List.contains] using h
    have hdir : joinSessionsDir f ∉ st.dirs := by
      simpa [List.contains] using hd
    have hfiles : (handleDownload f false st).1.diskFiles = st.diskFiles := by
      simp [handleDownload, h, he, hs, hd, hmem, hdir]
    refine ⟨by simp [handleDownload, h, he, hs, hd, hmem, hdir], hfiles,
      by simp [handleDownload, h, he, hs, hd, hmem, hdir], ?_⟩
    have hc : (handleDownload f false st).1.diskFiles.contains (joinSessionsDir f) = true := by
      rw [hfiles]; exact h
    simp [fireDeleteFile, hc, hfiles, hmem, List.mem_filter]

/-- A state with one loose session file on disk, for the download
witness. -/
def downloadWitnessState : ServerState :=
  { initialState with diskFiles := ["sessions/creds_123.json"] }

/-- Witness for `downloadMissing404ServedThenDeleted` at concrete
filenames. -/
theorem downloadMissing404ServedThenDeletedWitness :
    handleDownload "nope.json" false downloadWitnessState =
      (downloadWitnessState, .notFound) ∧
    (handleDownload "creds_123.json" false downloadWitnessState).2 = .served ∧
    joinSessionsDir "creds_123.json" ∉
      (fireDeleteFile (joinSessionsDir "creds_123.json")
        (handleDownload "creds_123.json" false downloadWitnessState).1).diskFiles := by
  have h := downloadMissing404ServedThenDeleted
  have h2 := h.2 "creds_123.json" downloadWitnessState (by decide) (by decide) (by decide)
    (by decide)
  exact ⟨h.1 "nope.json" false downloadWitnessState (by decide) (by decide) (by decide)
    (by decide), h2.1, h2.2.2.2⟩
